import Mathlib

/-!
# The Tux controller driver (`module/tuxctl-ioctl.c`)

A shallow embedding of the ioctl helpers and of the packet handler of the
driver, followed by the properties of the driver's specification.

* The three globals `leds`, `buttons`, `ack` form `DeviceState`.
* C unsigned values are natural numbers.  A conversion to `unsigned char` is
  written `% 256` where the C code converts a wider value; values that are
  read from an `unsigned char` or held in an `unsigned long` are used as they
  are.
* A call of `tuxctl_ldisc_put` is recorded as the bytes it is handed; every
  entry point returns the records of the calls it made, in order.
-/

namespace Tuxctl

/-- Constants the driver takes from `mtcp.h`, `tuxctl-ioctl.h` and `errno.h`,
which are not part of the sources at hand.  They are parameters of the model.
The proof fields record what C and the headers guarantee whatever the
numbers are: the three command opcodes fit a byte, the labels of each
`switch` are pairwise different, and an errno code is positive. -/
structure Consts where
  MTCP_BIOC_ON : Nat
  MTCP_LED_SET : Nat
  MTCP_LED_USR : Nat
  MTCP_ACK : Nat
  MTCP_BIOC_EVENT : Nat
  MTCP_RESET : Nat
  TUX_INIT : Nat
  TUX_BUTTONS : Nat
  TUX_SET_LED : Nat
  TUX_LED_ACK : Nat
  TUX_LED_REQUEST : Nat
  TUX_READ_LED : Nat
  EINVAL : Nat
  command_bytes : MTCP_BIOC_ON < 256 ∧ MTCP_LED_SET < 256 ∧ MTCP_LED_USR < 256
  packet_labels : [MTCP_ACK, MTCP_BIOC_EVENT, MTCP_RESET].Nodup
  ioctl_labels :
    [TUX_INIT, TUX_BUTTONS, TUX_SET_LED, TUX_LED_ACK, TUX_LED_REQUEST, TUX_READ_LED].Nodup
  EINVAL_pos : 0 < EINVAL

/-- One admissible choice of the constants, used to evaluate the model on
concrete inputs. -/
def sampleConsts : Consts where
  MTCP_BIOC_ON := 0xC3
  MTCP_LED_SET := 0xC6
  MTCP_LED_USR := 0xC7
  MTCP_ACK := 0x40
  MTCP_BIOC_EVENT := 0x41
  MTCP_RESET := 0x42
  TUX_INIT := 0x4513
  TUX_BUTTONS := 0x4512
  TUX_SET_LED := 0x4510
  TUX_LED_ACK := 0x4514
  TUX_LED_REQUEST := 0x4515
  TUX_READ_LED := 0x4511
  EINVAL := 22
  command_bytes := by decide
  packet_labels := by decide
  ioctl_labels := by decide
  EINVAL_pos := by decide

/-- The driver's globals: `static unsigned long leds`, `unsigned long buttons`
and `unsigned int ack`. -/
structure DeviceState where
  leds : Nat
  buttons : Nat
  ack : Nat
deriving DecidableEq

/-- The globals as the C initialisers leave them: `leds` and `buttons` are
zero-initialised, `ack = 1`. -/
def initialState : DeviceState := { leds := 0, buttons := 0, ack := 1 }

/-- What a call leaves behind: the C return value, the globals afterwards, the
buffers handed to `tuxctl_ldisc_put` in call order, and the store made through
a user pointer (address and value), if any. -/
structure Outcome where
  ret : Int
  st : DeviceState
  tx : List (List Nat)
  store : Option (Nat × Nat)
deriving DecidableEq

/-- Modelled from the spec: `tuxctl_ldisc_put` is defined in `tuxctl-ld.c`,
which is not among the sources; the spec treats the transport as accepting
outbound byte buffers, so a call `tuxctl_ldisc_put(tty, buf, n)` is recorded
as the first `n` bytes of `buf`. -/
def tuxctl_ldisc_put (buf : List Nat) (n : Nat) : List (List Nat) :=
  [buf.take n]

/-- The local table `hex_bitmask[16]` of `tuxctl_ioctl_setLED`. -/
def hex_bitmask : List Nat :=
  [0xE7, 0x06, 0xCB, 0x8F, 0x2E, 0xAD, 0xED, 0x86,
   0xEF, 0xAF, 0xEE, 0x6D, 0xE1, 0x4F, 0xE9, 0xE8]

/-- Function `tuxctl_ioctl_init`: clears `ack`, writes the two opcodes, resets
`buttons` and `leds`. -/
def tuxctl_ioctl_init (K : Consts) (st : DeviceState) : Outcome :=
  let opcode_buf : List Nat := [K.MTCP_BIOC_ON % 256, K.MTCP_LED_USR % 256]
  let st := { st with ack := 0 }
  let tx := tuxctl_ldisc_put opcode_buf 2
  let st := { st with buttons := 0xFF }
  let st := { st with leds := 0 }
  { ret := 0, st := st, tx := tx, store := none }

/-- Function `tuxctl_ioctl_buttons`: `arg` is the pointer; a null pointer is
refused, otherwise `buttons` is stored at it. -/
def tuxctl_ioctl_buttons (K : Consts) (st : DeviceState) (arg : Nat) : Outcome :=
  if arg = 0 then { ret := -(K.EINVAL : Int), st := st, tx := [], store := none }
  else { ret := 0, st := st, tx := [], store := some (arg, st.buttons) }

/-- One iteration of the `for` loop of `tuxctl_ioctl_setLED`. -/
def setLED_body (seg led dem : Nat) (led_buf : List Nat) (i : Nat) : List Nat :=
  if led &&& (1 <<< i) ≠ 0 then
    let led_buf := led_buf.set (i + 2) (hex_bitmask.getD ((seg >>> (4 * i)) &&& 0xF) 0)
    if dem &&& (1 <<< i) ≠ 0 then
      led_buf.set (i + 2) ((led_buf.getD (i + 2) 0 ||| 0x10) % 256)
    else led_buf
  else led_buf

/-- Function `tuxctl_ioctl_setLED`. -/
def tuxctl_ioctl_setLED (K : Consts) (st : DeviceState) (arg : Nat) : Outcome :=
  let led_buf : List Nat := [K.MTCP_LED_SET % 256, 0xF, 0, 0, 0, 0]
  if st.ack = 0 then { ret := 0, st := st, tx := [], store := none }
  else
    let st := { st with ack := 0 }
    let seg := arg &&& 0xFFFF
    let led := (arg &&& 0xF0000) >>> 16
    let dem := (arg &&& 0xF000000) >>> 24
    let led_buf := (List.range 4).foldl (setLED_body seg led dem) led_buf
    let st := { st with leds := arg }
    let tx := tuxctl_ldisc_put led_buf 6
    { ret := 0, st := st, tx := tx, store := none }

/-- Function `tuxctl_handle_packet`, a `void` function: the globals afterwards
and the buffers written.  The arguments are `packet[0]`, `packet[1]` and
`packet[2]`. -/
def tuxctl_handle_packet (K : Consts) (st : DeviceState) (p0 p1 p2 : Nat) :
    DeviceState × List (List Nat) :=
  let a := p0
  let b := p1
  let c := p2
  if a = K.MTCP_ACK then
    ({ st with ack := 1 }, [])
  else if a = K.MTCP_BIOC_EVENT then
    ({ st with buttons :=
        (b &&& 0xF) ||| ((c &&& 0x9) <<< 4) ||| ((c &&& 0x2) <<< 5) ||| ((c &&& 0x4) <<< 3) }, [])
  else if a = K.MTCP_RESET then
    let opcode_buf : List Nat := [K.MTCP_BIOC_ON % 256, K.MTCP_LED_USR % 256]
    let tx := tuxctl_ldisc_put opcode_buf 2
    let r := tuxctl_ioctl_setLED K st st.leds
    (r.st, tx ++ r.tx)
  else (st, [])

/-- Function `tuxctl_ioctl`: the dispatch on `cmd`. -/
def tuxctl_ioctl (K : Consts) (st : DeviceState) (cmd arg : Nat) : Outcome :=
  if cmd = K.TUX_INIT then tuxctl_ioctl_init K st
  else if cmd = K.TUX_BUTTONS then tuxctl_ioctl_buttons K st arg
  else if cmd = K.TUX_SET_LED then tuxctl_ioctl_setLED K st arg
  else if cmd = K.TUX_LED_ACK then { ret := 0, st := st, tx := [], store := none }
  else if cmd = K.TUX_LED_REQUEST then { ret := 0, st := st, tx := [], store := none }
  else if cmd = K.TUX_READ_LED then { ret := 0, st := st, tx := [], store := none }
  else { ret := -(K.EINVAL : Int), st := st, tx := [], store := none }

/-- The expression `tuxctl_handle_packet` assigns to `buttons` in
`case MTCP_BIOC_EVENT`, named for use in the proofs. -/
def eventMask (b c : Nat) : Nat :=
  (b &&& 0xF) ||| ((c &&& 0x9) <<< 4) ||| ((c &&& 0x2) <<< 5) ||| ((c &&& 0x4) <<< 3)

/-! ## Event sequences at the driver boundary -/

/-- An event at the driver boundary: a control-interface call `tuxctl_ioctl`
with its `cmd` and `arg`, or the delivery of a three-byte packet. -/
inductive Event where
  | ioctl (cmd arg : Nat)
  | packet (p0 p1 p2 : Nat)
deriving DecidableEq

/-- The globals and the buffers written after one event. -/
def step (K : Consts) (st : DeviceState) : Event → DeviceState × List (List Nat)
  | .ioctl cmd arg => ((tuxctl_ioctl K st cmd arg).st, (tuxctl_ioctl K st cmd arg).tx)
  | .packet p0 p1 p2 => tuxctl_handle_packet K st p0 p1 p2

/-- The globals and everything written after a finite sequence of events. -/
def run (K : Consts) (st : DeviceState) : List Event → DeviceState × List (List Nat)
  | [] => (st, [])
  | e :: es => ((run K (step K st e).1 es).1, (step K st e).2 ++ (run K (step K st e).1 es).2)

/-- Whether an event is the delivery of a packet with opcode `MTCP_ACK`. -/
def Event.isAck (K : Consts) : Event → Bool
  | .ioctl _ _ => false
  | .packet p0 _ _ => decide (p0 = K.MTCP_ACK)

/-- Whether an event is a display request, a button query, or a packet that is
neither an acknowledgment nor a reset notification (a button packet or an
unrecognized one). -/
def Event.isQuiet (K : Consts) : Event → Bool
  | .ioctl cmd _ => decide (cmd = K.TUX_SET_LED ∨ cmd = K.TUX_BUTTONS)
  | .packet p0 _ _ => decide (p0 ≠ K.MTCP_ACK ∧ p0 ≠ K.MTCP_RESET)

/-- The six-byte buffers among the buffers written, in order: the LED-set
packets (the driver hands over buffers of two bytes and of six bytes only). -/
def ledPackets (tx : List (List Nat)) : List (List Nat) :=
  tx.filter (fun buf => decide (buf.length = 6))

/-- Segment byte of position `i` in the buffer a call
`tuxctl_ioctl_setLED(tty, v)` writes: byte `i + 2` of the first buffer written
(0 when nothing is written). -/
def sentSegment (K : Consts) (st : DeviceState) (v i : Nat) : Nat :=
  ((tuxctl_ioctl_setLED K st v).tx.headD []).getD (i + 2) 0

/-! ## The encoding in the words of the specification -/

/-- Segment byte of display position `i` for the value `v`, as the
specification words it: blank when bit `16 + i` is clear, otherwise the table
entry of nibble `i`, with `0x10` added when bit `24 + i` is set. -/
def specSegment (v i : Nat) : Nat :=
  if v.testBit (16 + i) then
    hex_bitmask.getD ((v >>> (4 * i)) &&& 0xF) 0 ||| (if v.testBit (24 + i) then 0x10 else 0)
  else 0

/-- The six bytes the specification prescribes for the value `v`. -/
def specLedPacket (K : Consts) (v : Nat) : List Nat :=
  [K.MTCP_LED_SET, 0x0F, specSegment v 0, specSegment v 1, specSegment v 2, specSegment v 3]

/-- The seven segments of a digit. -/
inductive Segment where
  | A | B | C | D | E | F | G
deriving DecidableEq

/-- Bit of each segment in the layout `A E F dp G C B D` from bit 7 down to
bit 0. -/
def Segment.bit : Segment → Nat
  | .A => 0x80
  | .E => 0x40
  | .F => 0x20
  | .G => 0x08
  | .C => 0x04
  | .B => 0x02
  | .D => 0x01

/-- Bit of the decimal point in the same layout. -/
def dpBit : Nat := 0x10

/-- Segments lit in the conventional seven-segment glyph of a hex digit (nothing
beyond `F`). -/
def glyph : Nat → List Segment
  | 0 => [.A, .B, .C, .D, .E, .F]
  | 1 => [.B, .C]
  | 2 => [.A, .B, .D, .E, .G]
  | 3 => [.A, .B, .C, .D, .G]
  | 4 => [.B, .C, .F, .G]
  | 5 => [.A, .C, .D, .F, .G]
  | 6 => [.A, .C, .D, .E, .F, .G]
  | 7 => [.A, .B, .C]
  | 8 => [.A, .B, .C, .D, .E, .F, .G]
  | 9 => [.A, .B, .C, .D, .F, .G]
  | 10 => [.A, .B, .C, .E, .F, .G]
  | 11 => [.C, .D, .E, .F, .G]
  | 12 => [.A, .D, .E, .F]
  | 13 => [.B, .C, .D, .E, .G]
  | 14 => [.A, .D, .E, .F, .G]
  | 15 => [.A, .E, .F, .G]
  | _ => []

/-- The OR of the bits of the segments of a glyph. -/
def glyphBits (d : Nat) : Nat :=
  (glyph d).foldl (fun acc s => acc ||| s.bit) 0

/-- The eight buttons. -/
inductive Button where
  | START | A | B | C | UP | DOWN | LEFT | RIGHT
deriving DecidableEq

/-- Whether the raw data bytes `b` (first) and `c` (second) of a button packet
report a button: START, A, B, C are bits 0 to 3 of `b`, and UP, LEFT, DOWN,
RIGHT are bits 0 to 3 of `c`. -/
def Button.raw (b c : Nat) : Button → Bool
  | .START => b.testBit 0
  | .A => b.testBit 1
  | .B => b.testBit 2
  | .C => b.testBit 3
  | .UP => c.testBit 0
  | .LEFT => c.testBit 1
  | .DOWN => c.testBit 2
  | .RIGHT => c.testBit 3

/-- Bit of each button in the mask when the high nibble is read in the order
UP, LEFT, DOWN, RIGHT (bits 4, 5, 6, 7). -/
def Button.bitUpLeftDownRight : Button → Nat
  | .START => 0
  | .A => 1
  | .B => 2
  | .C => 3
  | .UP => 4
  | .LEFT => 5
  | .DOWN => 6
  | .RIGHT => 7

/-- Bit of each button in the mask in the order of the comment in
`tuxctl_handle_packet`: right, left, down, up, c, b, a, start from bit 7 down
to bit 0. -/
def Button.bitCanonical : Button → Nat
  | .START => 0
  | .A => 1
  | .B => 2
  | .C => 3
  | .UP => 4
  | .DOWN => 5
  | .LEFT => 6
  | .RIGHT => 7

/-! ## Bit-level facts used by the proofs -/

theorem and_one_shiftLeft_ne_zero (x i : Nat) :
    x &&& (1 <<< i) ≠ 0 ↔ x.testBit i = true := by
  rw [Nat.one_shiftLeft]
  constructor
  · intro h
    obtain ⟨j, hj⟩ := Nat.ne_zero_implies_bit_true h
    rw [Nat.testBit_and, Nat.testBit_two_pow] at hj
    simp only [Bool.and_eq_true, decide_eq_true_eq] at hj
    rw [hj.2]; exact hj.1
  · intro h h0
    have : (x &&& 2 ^ i).testBit i = true := by
      rw [Nat.testBit_and, Nat.testBit_two_pow_self, h]; rfl
    rw [h0] at this
    simp at this

theorem hex_bitmask_dp_lt (n : Nat) :
    hex_bitmask.getD (n &&& 0xF) 0 ||| 0x10 < 256 := by
  have h : n &&& 0xF < 16 := by
    have h2 : n &&& 0xF = n % 2 ^ 4 := Nat.and_pow_two_sub_one_eq_mod n 4
    omega
  generalize n &&& 0xF = k at h
  interval_cases k <;> decide

theorem masked_field_testBit (v m k i : Nat) :
    ((v &&& (m <<< k)) >>> k).testBit i = (v.testBit (k + i) && m.testBit i) := by
  rw [Nat.testBit_shiftRight, Nat.testBit_and, Nat.testBit_shiftLeft]
  simp

theorem testBit_fifteen (i : Nat) (hi : i < 4) : Nat.testBit 15 i = true := by
  have h := Nat.testBit_two_pow_sub_one 4 i
  simpa [hi] using h

theorem led_bit (v i : Nat) (hi : i < 4) :
    ((v &&& 0xF0000) >>> 16) &&& (1 <<< i) ≠ 0 ↔ v.testBit (16 + i) = true := by
  rw [and_one_shiftLeft_ne_zero, show (0xF0000 : Nat) = 0xF <<< 16 from rfl,
    masked_field_testBit, testBit_fifteen i hi, Bool.and_true]

theorem dem_bit (v i : Nat) (hi : i < 4) :
    ((v &&& 0xF000000) >>> 24) &&& (1 <<< i) ≠ 0 ↔ v.testBit (24 + i) = true := by
  rw [and_one_shiftLeft_ne_zero, show (0xF000000 : Nat) = 0xF <<< 24 from rfl,
    masked_field_testBit, testBit_fifteen i hi, Bool.and_true]

theorem seg_nibble (v i : Nat) (hi : i < 4) :
    ((v &&& 0xFFFF) >>> (4 * i)) &&& 0xF = (v >>> (4 * i)) &&& 0xF := by
  have h16 : v &&& 0xFFFF = v % 2 ^ 16 := Nat.and_pow_two_sub_one_eq_mod v 16
  have e1 : ∀ x : Nat, x &&& 0xF = x % 2 ^ 4 := fun x => Nat.and_pow_two_sub_one_eq_mod x 4
  rw [h16, e1, e1, Nat.shiftRight_eq_div_pow, Nat.shiftRight_eq_div_pow]
  interval_cases i <;> omega

theorem setLED_body_eq (v i : Nat) (hi : i < 4) (a b s0 s1 s2 s3 : Nat) :
    setLED_body (v &&& 0xFFFF) ((v &&& 0xF0000) >>> 16) ((v &&& 0xF000000) >>> 24)
        [a, b, s0, s1, s2, s3] i
      = if v.testBit (16 + i) then [a, b, s0, s1, s2, s3].set (i + 2) (specSegment v i)
        else [a, b, s0, s1, s2, s3] := by
  unfold setLED_body specSegment
  simp only [led_bit v i hi, dem_bit v i hi, seg_nibble v i hi]
  by_cases h1 : v.testBit (16 + i) = true
  · by_cases h2 : v.testBit (24 + i) = true
    · simp only [h1, h2, if_true]
      interval_cases i <;> simp <;> simpa using hex_bitmask_dp_lt _
    · simp only [h1, h2, if_true, if_false]
      simp
  · simp only [h1, if_false]
    simp

theorem setLED_loop_eq (v a : Nat) :
    (List.range 4).foldl
        (setLED_body (v &&& 0xFFFF) ((v &&& 0xF0000) >>> 16) ((v &&& 0xF000000) >>> 24))
        [a, 0xF, 0, 0, 0, 0]
      = [a, 0xF, specSegment v 0, specSegment v 1, specSegment v 2, specSegment v 3] := by
  have hr : List.range 4 = [0, 1, 2, 3] := by decide
  have z : ∀ i, v.testBit (16 + i) = false → specSegment v i = 0 := by
    intro i h; simp [specSegment, h]
  rw [hr]
  simp only [List.foldl]
  rw [setLED_body_eq v 0 (by decide)]
  by_cases h0 : v.testBit (16 + 0) = true <;>
  by_cases h1 : v.testBit (16 + 1) = true <;>
  by_cases h2 : v.testBit (16 + 2) = true <;>
  by_cases h3 : v.testBit (16 + 3) = true <;>
  simp only [Bool.not_eq_true] at h0 h1 h2 h3 <;>
  simp [h0, h1, h2, h3, setLED_body_eq, List.set, z]

theorem setLED_open (K : Consts) (st : DeviceState) (v : Nat) (h : st.ack ≠ 0) :
    tuxctl_ioctl_setLED K st v =
      { ret := 0, st := { leds := v, buttons := st.buttons, ack := 0 },
        tx := [specLedPacket K v], store := none } := by
  have hb : K.MTCP_LED_SET % 256 = K.MTCP_LED_SET := Nat.mod_eq_of_lt K.command_bytes.2.1
  simp only [tuxctl_ioctl_setLED, if_neg h, setLED_loop_eq, tuxctl_ldisc_put, hb, specLedPacket]
  simp

theorem setLED_closed (K : Consts) (st : DeviceState) (v : Nat) (h : st.ack = 0) :
    tuxctl_ioctl_setLED K st v = { ret := 0, st := st, tx := [], store := none } := by
  simp [tuxctl_ioctl_setLED, h]

theorem init_bytes (K : Consts) :
    tuxctl_ldisc_put [K.MTCP_BIOC_ON % 256, K.MTCP_LED_USR % 256] 2
      = [[K.MTCP_BIOC_ON, K.MTCP_LED_USR]] := by
  rw [Nat.mod_eq_of_lt K.command_bytes.1, Nat.mod_eq_of_lt K.command_bytes.2.2]
  rfl

theorem handle_ack (K : Consts) (st : DeviceState) (p1 p2 : Nat) :
    tuxctl_handle_packet K st K.MTCP_ACK p1 p2 = ({ st with ack := 1 }, []) := by
  simp [tuxctl_handle_packet]

theorem packet_labels_ne (K : Consts) :
    K.MTCP_ACK ≠ K.MTCP_BIOC_EVENT ∧ K.MTCP_ACK ≠ K.MTCP_RESET ∧
      K.MTCP_BIOC_EVENT ≠ K.MTCP_RESET := by
  have hl := K.packet_labels
  simp only [List.nodup_cons, List.mem_cons, List.mem_singleton, not_or, List.not_mem_nil,
    not_false_eq_true, and_true, List.nodup_nil] at hl
  exact ⟨hl.1.1, hl.1.2, hl.2⟩

theorem handle_reset (K : Consts) (st : DeviceState) (p1 p2 : Nat) :
    tuxctl_handle_packet K st K.MTCP_RESET p1 p2
      = ((tuxctl_ioctl_setLED K st st.leds).st,
         [K.MTCP_BIOC_ON, K.MTCP_LED_USR] :: (tuxctl_ioctl_setLED K st st.leds).tx) := by
  obtain ⟨_, h1, h2⟩ := packet_labels_ne K
  simp only [tuxctl_handle_packet, if_neg h1.symm, if_neg h2.symm, if_true, init_bytes]
  rfl

/-! ## The properties -/

/-- C1: with no command outstanding (`ack = 1`), `tuxctl_ioctl_setLED` returns
0 and hands over exactly one buffer, `MTCP_LED_SET`, `0x0F` and the four
segment bytes, where the byte of position `i` is the table entry of nibble `i`
of `v`, with `0x10` added when bit `24 + i` is set, if bit `16 + i` of `v` is
set, and 0 otherwise; afterwards `leds = v`, `ack = 0`, and `buttons` is as
before. -/
theorem setLED_encodes (K : Consts) (st : DeviceState) (v : Nat) (h : st.ack = 1) :
    (tuxctl_ioctl_setLED K st v).ret = 0 ∧
    (tuxctl_ioctl_setLED K st v).tx =
      [[K.MTCP_LED_SET, 0x0F, specSegment v 0, specSegment v 1, specSegment v 2,
        specSegment v 3]] ∧
    (∀ i, specSegment v i =
      if v.testBit (16 + i) = true then
        hex_bitmask.getD ((v >>> (4 * i)) &&& 0xF) 0 ||| (if v.testBit (24 + i) = true then 0x10 else 0)
      else 0) ∧
    (tuxctl_ioctl_setLED K st v).st.leds = v ∧
    (tuxctl_ioctl_setLED K st v).st.ack = 0 ∧
    (tuxctl_ioctl_setLED K st v).st.buttons = st.buttons := by
  have hne : st.ack ≠ 0 := by omega
  rw [setLED_open K st v hne]
  exact ⟨rfl, rfl, fun _ => rfl, rfl, rfl, rfl⟩

/-- Witness of C1: the initial globals and the value `0x0507BEEF`. -/
theorem setLED_encodes_witness :
    initialState.ack = 1 ∧
    (tuxctl_ioctl_setLED sampleConsts initialState 0x0507BEEF).tx
      = [[0xC6, 0x0F, 0xF8, 0xE9, 0xF9, 0]] := by
  refine ⟨rfl, ?_⟩
  rw [(setLED_encodes sampleConsts initialState 0x0507BEEF rfl).2.1]
  decide

/-- C2: a second `tuxctl_ioctl_setLED` right after a first one, with no
acknowledgment in between, returns 0, writes nothing and leaves the globals
as the first call left them; and whenever `ack = 0` the call returns 0, writes
nothing and changes nothing. -/
theorem setLED_dropped_while_outstanding (K : Consts) (st : DeviceState) (v1 v2 : Nat) :
    tuxctl_ioctl_setLED K (tuxctl_ioctl_setLED K st v1).st v2
      = { ret := 0, st := (tuxctl_ioctl_setLED K st v1).st, tx := [], store := none } ∧
    (st.ack = 0 →
      tuxctl_ioctl_setLED K st v2 = { ret := 0, st := st, tx := [], store := none }) := by
  refine ⟨?_, setLED_closed K st v2⟩
  apply setLED_closed
  by_cases h : st.ack = 0
  · rw [setLED_closed K st v1 h]; exact h
  · rw [setLED_open K st v1 h]

/-- Witness of C2: two calls from the initial globals, and one call with a
command outstanding. -/
theorem setLED_dropped_while_outstanding_witness :
    (tuxctl_ioctl_setLED sampleConsts
        (tuxctl_ioctl_setLED sampleConsts initialState 0x000F1234).st 0x000F5678).tx = [] ∧
    (tuxctl_ioctl_setLED sampleConsts
        (tuxctl_ioctl_setLED sampleConsts initialState 0x000F1234).st 0x000F5678).st.leds
      = 0x000F1234 ∧
    tuxctl_ioctl_setLED sampleConsts { leds := 7, buttons := 0xFF, ack := 0 } 0x000F5678
      = { ret := 0, st := { leds := 7, buttons := 0xFF, ack := 0 }, tx := [], store := none } := by
  have h1 := (setLED_dropped_while_outstanding sampleConsts initialState 0x000F1234 0x000F5678).1
  have h2 := (setLED_dropped_while_outstanding sampleConsts
    { leds := 7, buttons := 0xFF, ack := 0 } 0 0x000F5678).2 rfl
  refine ⟨by rw [h1], ?_, h2⟩
  rw [h1, setLED_open sampleConsts initialState _ (by decide)]

/-- C3: after a packet with opcode `MTCP_ACK`, whatever `ack` was, `ack = 1`,
and a `tuxctl_ioctl_setLED` issued next returns 0 and writes its full six-byte
buffer. -/
theorem ack_reopens_gate (K : Consts) (st : DeviceState) (p1 p2 v : Nat) :
    (tuxctl_handle_packet K st K.MTCP_ACK p1 p2).1.ack = 1 ∧
    (tuxctl_ioctl_setLED K (tuxctl_handle_packet K st K.MTCP_ACK p1 p2).1 v).ret = 0 ∧
    (tuxctl_ioctl_setLED K (tuxctl_handle_packet K st K.MTCP_ACK p1 p2).1 v).tx
      = [[K.MTCP_LED_SET, 0x0F, specSegment v 0, specSegment v 1, specSegment v 2,
          specSegment v 3]] ∧
    (tuxctl_ioctl_setLED K (tuxctl_handle_packet K st K.MTCP_ACK p1 p2).1 v).st.leds = v := by
  rw [handle_ack, setLED_open K _ v (by simp)]
  exact ⟨rfl, rfl, rfl, rfl⟩

/-- C4, as stated, fails: with a command outstanding (`ack = 0`) a packet with
opcode `MTCP_RESET` writes the two init bytes only, not the six bytes of the
saved value `0x000F1234`. -/
theorem reset_replay_counterexample :
    (tuxctl_handle_packet sampleConsts { leds := 0x000F1234, buttons := 0xFF, ack := 0 }
        sampleConsts.MTCP_RESET 0 0).2 = [[0xC3, 0xC7]] ∧
    (tuxctl_handle_packet sampleConsts { leds := 0x000F1234, buttons := 0xFF, ack := 0 }
        sampleConsts.MTCP_RESET 0 0).2
      ≠ [[sampleConsts.MTCP_BIOC_ON, sampleConsts.MTCP_LED_USR],
         specLedPacket sampleConsts 0x000F1234] := by
  decide

/-- C4, amended: with no command outstanding (`ack = 1`), a packet with opcode
`MTCP_RESET` writes exactly the two bytes `MTCP_BIOC_ON`, `MTCP_LED_USR` and
then one six-byte buffer for the saved value `leds`, the very buffer a
`tuxctl_ioctl_setLED` call with that value writes from any state with no
command outstanding. -/
theorem reset_replay (K : Consts) (st : DeviceState) (p1 p2 : Nat) (h : st.ack = 1) :
    (tuxctl_handle_packet K st K.MTCP_RESET p1 p2).2
      = [[K.MTCP_BIOC_ON, K.MTCP_LED_USR], specLedPacket K st.leds] ∧
    (specLedPacket K st.leds).length = 6 ∧
    ∀ st0 : DeviceState, st0.ack = 1 →
      (tuxctl_ioctl_setLED K st0 st.leds).tx = [specLedPacket K st.leds] := by
  have hne : st.ack ≠ 0 := by omega
  refine ⟨?_, rfl, ?_⟩
  · rw [handle_reset, setLED_open K st st.leds hne]
  · intro st0 h0
    rw [setLED_open K st0 st.leds (by omega)]

/-- Witness of C4 amended: the value `0x000F1234` saved, no command
outstanding. -/
theorem reset_replay_witness :
    ({ leds := 0x000F1234, buttons := 0xFF, ack := 1 } : DeviceState).ack = 1 ∧
    (tuxctl_handle_packet sampleConsts { leds := 0x000F1234, buttons := 0xFF, ack := 1 }
        sampleConsts.MTCP_RESET 0 0).2
      = [[0xC3, 0xC7], [0xC6, 0x0F, 0x2E, 0x8F, 0xCB, 0x06]] := by
  refine ⟨rfl, ?_⟩
  rw [(reset_replay sampleConsts { leds := 0x000F1234, buttons := 0xFF, ack := 1 } 0 0 rfl).1]
  decide

/-! ### Button events -/

theorem and_low_nibble (x m : Nat) (hm : 15 &&& m = m) : x &&& m = (x % 16) &&& m := by
  have h : x % 16 = x &&& 15 := (Nat.and_pow_two_sub_one_eq_mod x 4).symm
  rw [h, Nat.and_assoc, hm]

theorem eventMask_low (b c : Nat) : eventMask b c = eventMask (b % 16) (c % 16) := by
  unfold eventMask
  rw [and_low_nibble b 0xF rfl, and_low_nibble c 0x9 rfl, and_low_nibble c 0x2 rfl,
    and_low_nibble c 0x4 rfl]

theorem eventMask_nibbles : ∀ b < 16, ∀ c < 16, eventMask b c < 256 ∧
    (eventMask b c).testBit 0 = b.testBit 0 ∧ (eventMask b c).testBit 1 = b.testBit 1 ∧
    (eventMask b c).testBit 2 = b.testBit 2 ∧ (eventMask b c).testBit 3 = b.testBit 3 ∧
    (eventMask b c).testBit 4 = c.testBit 0 ∧ (eventMask b c).testBit 5 = c.testBit 2 ∧
    (eventMask b c).testBit 6 = c.testBit 1 ∧ (eventMask b c).testBit 7 = c.testBit 3 := by
  decide

theorem testBit_low_nibble (x k : Nat) (hk : k < 4) : (x % 16).testBit k = x.testBit k := by
  have h := Nat.testBit_mod_two_pow x 4 k
  simpa [hk] using h

theorem eventMask_bits (b c : Nat) : eventMask b c < 256 ∧
    (eventMask b c).testBit 0 = b.testBit 0 ∧ (eventMask b c).testBit 1 = b.testBit 1 ∧
    (eventMask b c).testBit 2 = b.testBit 2 ∧ (eventMask b c).testBit 3 = b.testBit 3 ∧
    (eventMask b c).testBit 4 = c.testBit 0 ∧ (eventMask b c).testBit 5 = c.testBit 2 ∧
    (eventMask b c).testBit 6 = c.testBit 1 ∧ (eventMask b c).testBit 7 = c.testBit 3 := by
  have h := eventMask_nibbles (b % 16) (Nat.mod_lt _ (by decide)) (c % 16)
    (Nat.mod_lt _ (by decide))
  rw [← eventMask_low] at h
  simpa only [testBit_low_nibble b 0 (by decide), testBit_low_nibble b 1 (by decide),
    testBit_low_nibble b 2 (by decide), testBit_low_nibble b 3 (by decide),
    testBit_low_nibble c 0 (by decide), testBit_low_nibble c 1 (by decide),
    testBit_low_nibble c 2 (by decide), testBit_low_nibble c 3 (by decide)] using h

theorem handle_event (K : Consts) (st : DeviceState) (b c : Nat) :
    tuxctl_handle_packet K st K.MTCP_BIOC_EVENT b c
      = ({ st with buttons := eventMask b c }, []) := by
  have h := (packet_labels_ne K).1
  simp only [tuxctl_handle_packet, if_neg h.symm, if_true, eventMask]

/-- C5: a packet with opcode `MTCP_BIOC_EVENT` and data bytes `b`, `c` sets
`buttons` to the 8-bit value whose bit `k` is bit `k` of `b` for `k` in 0..3
and whose bits 4, 5, 6, 7 are bits 0 (up), 2 (down), 1 (left), 3 (right) of
`c`; bits 4..7 of `b` and `c` have no influence, the former mask has none,
`leds` and `ack` are unchanged and nothing is written. -/
theorem button_remap (K : Consts) (st : DeviceState) (b c : Nat) :
    (∀ k, k < 4 →
      (tuxctl_handle_packet K st K.MTCP_BIOC_EVENT b c).1.buttons.testBit k = b.testBit k) ∧
    (tuxctl_handle_packet K st K.MTCP_BIOC_EVENT b c).1.buttons.testBit 4 = c.testBit 0 ∧
    (tuxctl_handle_packet K st K.MTCP_BIOC_EVENT b c).1.buttons.testBit 5 = c.testBit 2 ∧
    (tuxctl_handle_packet K st K.MTCP_BIOC_EVENT b c).1.buttons.testBit 6 = c.testBit 1 ∧
    (tuxctl_handle_packet K st K.MTCP_BIOC_EVENT b c).1.buttons.testBit 7 = c.testBit 3 ∧
    (tuxctl_handle_packet K st K.MTCP_BIOC_EVENT b c).1.buttons < 256 ∧
    (∀ b2 c2, b2 % 16 = b % 16 → c2 % 16 = c % 16 →
      (tuxctl_handle_packet K st K.MTCP_BIOC_EVENT b2 c2).1.buttons
        = (tuxctl_handle_packet K st K.MTCP_BIOC_EVENT b c).1.buttons) ∧
    (∀ st2 : DeviceState,
      (tuxctl_handle_packet K st2 K.MTCP_BIOC_EVENT b c).1.buttons
        = (tuxctl_handle_packet K st K.MTCP_BIOC_EVENT b c).1.buttons) ∧
    (tuxctl_handle_packet K st K.MTCP_BIOC_EVENT b c).1.leds = st.leds ∧
    (tuxctl_handle_packet K st K.MTCP_BIOC_EVENT b c).1.ack = st.ack ∧
    (tuxctl_handle_packet K st K.MTCP_BIOC_EVENT b c).2 = [] := by
  obtain ⟨hlt, h0, h1, h2, h3, h4, h5, h6, h7⟩ := eventMask_bits b c
  have he : ∀ (s : DeviceState) (x y : Nat),
      (tuxctl_handle_packet K s K.MTCP_BIOC_EVENT x y).1.buttons = eventMask x y := by
    intro s x y; rw [handle_event]
  refine ⟨?_, ?_, ?_, ?_, ?_, ?_, ?_, ?_, ?_, ?_, ?_⟩
  · intro k hk
    rw [he]
    interval_cases k
    · exact h0
    · exact h1
    · exact h2
    · exact h3
  · rw [he]; exact h4
  · rw [he]; exact h5
  · rw [he]; exact h6
  · rw [he]; exact h7
  · rw [he]; exact hlt
  · intro b2 c2 hb hc
    rw [he, he, eventMask_low b2 c2, eventMask_low b c, hb, hc]
  · intro st2
    rw [he, he]
  · rw [handle_event]
  · rw [handle_event]
  · rw [handle_event]

/-- Witness of C5: the bytes `0x8A`, `0x86` and the same with other tag bits. -/
theorem button_remap_witness :
    (tuxctl_handle_packet sampleConsts initialState sampleConsts.MTCP_BIOC_EVENT 0x8A 0x86).1.buttons
      = 0x6A ∧
    (tuxctl_handle_packet sampleConsts initialState sampleConsts.MTCP_BIOC_EVENT 0xFA 0x96).1.buttons
      = (tuxctl_handle_packet sampleConsts initialState
          sampleConsts.MTCP_BIOC_EVENT 0x8A 0x86).1.buttons ∧
    (tuxctl_handle_packet sampleConsts initialState
        sampleConsts.MTCP_BIOC_EVENT 0x8A 0x86).1.buttons.testBit 1 = Nat.testBit 0x8A 1 :=
  ⟨by decide,
   (button_remap sampleConsts initialState 0x8A 0x86).2.2.2.2.2.2.1 0xFA 0x96
     (by decide) (by decide),
   (button_remap sampleConsts initialState 0x8A 0x86).1 1 (by decide)⟩

/-- C6, as stated, fails: with only LEFT reported (bit 1 of the second data
byte, `c = 0x82`) the mask is `0x40`: bit 6 is set and bit 5, where the order
UP, LEFT, DOWN, RIGHT puts LEFT, is clear. -/
theorem button_order_counterexample :
    (tuxctl_handle_packet sampleConsts initialState sampleConsts.MTCP_BIOC_EVENT 0x80 0x82).1.buttons
      = 0x40 ∧
    Button.raw 0x80 0x82 .LEFT = true ∧
    (tuxctl_handle_packet sampleConsts initialState
        sampleConsts.MTCP_BIOC_EVENT 0x80 0x82).1.buttons.testBit
      (Button.bitUpLeftDownRight .LEFT) = false := by
  decide

/-- C6, amended: for all raw data bytes the mask of a button packet holds
START, A, B, C in bits 0, 1, 2, 3 and UP, DOWN, LEFT, RIGHT in bits 4, 5, 6,
7, where the raw bytes report START, A, B, C in bits 0..3 of the first data
byte and UP, LEFT, DOWN, RIGHT in bits 0..3 of the second. -/
theorem button_order (K : Consts) (st : DeviceState) (b c : Nat) (btn : Button) :
    (tuxctl_handle_packet K st K.MTCP_BIOC_EVENT b c).1.buttons.testBit btn.bitCanonical
      = btn.raw b c := by
  obtain ⟨_, h0, h1, h2, h3, h4, h5, h6, h7⟩ := eventMask_bits b c
  simp only [handle_event]
  cases btn
  · exact h0
  · exact h1
  · exact h2
  · exact h3
  · exact h4
  · exact h5
  · exact h6
  · exact h7

/-! ### Initialisation and the button query -/

theorem init_eq (K : Consts) (st : DeviceState) :
    tuxctl_ioctl_init K st
      = { ret := 0, st := { leds := 0, buttons := 0xFF, ack := 0 },
          tx := [[K.MTCP_BIOC_ON, K.MTCP_LED_USR]], store := none } := by
  simp only [tuxctl_ioctl_init, init_bytes]

/-- C7: from every state, also with a command outstanding,
`tuxctl_ioctl_init` returns 0, writes exactly the two bytes `MTCP_BIOC_ON`,
`MTCP_LED_USR` in that order and leaves `buttons = 0xFF`, `leds = 0`,
`ack = 0`; the state it leaves is the same from every prior state, so a
second call leaves what the first one left. -/
theorem init_resets (K : Consts) (st : DeviceState) :
    (tuxctl_ioctl_init K st).ret = 0 ∧
    (tuxctl_ioctl_init K st).tx = [[K.MTCP_BIOC_ON, K.MTCP_LED_USR]] ∧
    (tuxctl_ioctl_init K st).st = { leds := 0, buttons := 0xFF, ack := 0 } ∧
    (∀ st2 : DeviceState, (tuxctl_ioctl_init K st2).st = (tuxctl_ioctl_init K st).st) ∧
    (tuxctl_ioctl_init K (tuxctl_ioctl_init K st).st).st = (tuxctl_ioctl_init K st).st := by
  refine ⟨?_, ?_, ?_, ?_, ?_⟩
  · rw [init_eq]
  · rw [init_eq]
  · rw [init_eq]
  · intro st2; rw [init_eq, init_eq]
  · rw [init_eq, init_eq]

/-- C8: `tuxctl_ioctl_buttons` returns `-EINVAL` exactly when the pointer is
null; with a null pointer nothing is stored and the globals are unchanged;
with a non-null pointer it returns 0 and stores exactly `buttons` at it; in
both cases the globals are unchanged and nothing is written to the device. -/
theorem buttons_query (K : Consts) (st : DeviceState) (arg : Nat) :
    ((tuxctl_ioctl_buttons K st arg).ret = -(K.EINVAL : Int) ↔ arg = 0) ∧
    (arg = 0 → (tuxctl_ioctl_buttons K st arg).store = none) ∧
    (arg ≠ 0 → (tuxctl_ioctl_buttons K st arg).ret = 0 ∧
      (tuxctl_ioctl_buttons K st arg).store = some (arg, st.buttons)) ∧
    (tuxctl_ioctl_buttons K st arg).st = st ∧
    (tuxctl_ioctl_buttons K st arg).tx = [] := by
  have hpos := K.EINVAL_pos
  by_cases h : arg = 0
  · simp [tuxctl_ioctl_buttons, h]
  · have e : tuxctl_ioctl_buttons K st arg
        = { ret := 0, st := st, tx := [], store := some (arg, st.buttons) } := by
      simp only [tuxctl_ioctl_buttons, if_neg h]
    rw [e]
    refine ⟨⟨fun h0 => ?_, fun h0 => absurd h0 h⟩, fun h0 => absurd h0 h,
      fun _ => ⟨rfl, rfl⟩, rfl, rfl⟩
    have h1 : (0 : Int) = -(K.EINVAL : Int) := h0
    omega

/-- Witness of C8: a null pointer, and the pointer `0x1000` with mask `0x5A`. -/
theorem buttons_query_witness :
    (tuxctl_ioctl_buttons sampleConsts { leds := 3, buttons := 0x5A, ack := 0 } 0).store = none ∧
    (tuxctl_ioctl_buttons sampleConsts { leds := 3, buttons := 0x5A, ack := 0 } 0).ret = -22 ∧
    ((tuxctl_ioctl_buttons sampleConsts { leds := 3, buttons := 0x5A, ack := 0 } 0x1000).ret = 0 ∧
      (tuxctl_ioctl_buttons sampleConsts { leds := 3, buttons := 0x5A, ack := 0 } 0x1000).store
        = some (0x1000, 0x5A)) :=
  ⟨(buttons_query sampleConsts { leds := 3, buttons := 0x5A, ack := 0 } 0).2.1 rfl,
   (buttons_query sampleConsts { leds := 3, buttons := 0x5A, ack := 0 } 0).1.mpr rfl,
   (buttons_query sampleConsts { leds := 3, buttons := 0x5A, ack := 0 } 0x1000).2.2.1
     (by decide)⟩

/-! ### The range of the button mask -/

theorem setLED_buttons (K : Consts) (st : DeviceState) (v : Nat) :
    (tuxctl_ioctl_setLED K st v).st.buttons = st.buttons := by
  by_cases h : st.ack = 0
  · rw [setLED_closed K st v h]
  · rw [setLED_open K st v h]

theorem ioctl_buttons_le (K : Consts) (st : DeviceState) (cmd arg : Nat)
    (h : st.buttons ≤ 0xFF) : (tuxctl_ioctl K st cmd arg).st.buttons ≤ 0xFF := by
  unfold tuxctl_ioctl
  split_ifs
  · rw [init_eq]
  · unfold tuxctl_ioctl_buttons
    split_ifs <;> exact h
  · rw [setLED_buttons]; exact h
  all_goals exact h

theorem handle_packet_buttons_le (K : Consts) (st : DeviceState) (p0 p1 p2 : Nat)
    (h : st.buttons ≤ 0xFF) : (tuxctl_handle_packet K st p0 p1 p2).1.buttons ≤ 0xFF := by
  unfold tuxctl_handle_packet
  simp only []
  split_ifs
  · exact h
  · have hlt := (eventMask_bits p1 p2).1
    show eventMask p1 p2 ≤ 0xFF
    omega
  · show (tuxctl_ioctl_setLED K st st.leds).st.buttons ≤ 0xFF
    rw [setLED_buttons]; exact h
  · exact h

theorem run_buttons_le (K : Consts) (evs : List Event) :
    ∀ st : DeviceState, st.buttons ≤ 0xFF → (run K st evs).1.buttons ≤ 0xFF := by
  induction evs with
  | nil => intro st h; exact h
  | cons e es ih =>
    intro st h
    apply ih
    cases e with
    | ioctl cmd arg => exact ioctl_buttons_le K st cmd arg h
    | packet p0 p1 p2 => exact handle_packet_buttons_le K st p0 p1 p2 h

theorem ioctl_TUX_BUTTONS (K : Consts) (st : DeviceState) (arg : Nat) :
    tuxctl_ioctl K st K.TUX_BUTTONS arg = tuxctl_ioctl_buttons K st arg := by
  have hl := K.ioctl_labels
  have h : K.TUX_BUTTONS ≠ K.TUX_INIT := by
    intro e
    simp [e] at hl
  simp only [tuxctl_ioctl, if_neg h, if_true]

/-- C9: in every state reached from the initial globals (`buttons = 0`,
`leds = 0`, `ack = 1`) by a finite sequence of `tuxctl_ioctl` calls (any `cmd`,
any `arg`) and packets (any three bytes), `buttons` is at most `0xFF`; so the
value the button query stores through a non-null pointer is `buttons`, equal
to its own low byte, with nothing above the low byte. -/
theorem buttons_low_byte (K : Consts) (evs : List Event) :
    (run K initialState evs).1.buttons ≤ 0xFF ∧
    ∀ arg, arg ≠ 0 →
      (tuxctl_ioctl K (run K initialState evs).1 K.TUX_BUTTONS arg).store
        = some (arg, (run K initialState evs).1.buttons) ∧
      (run K initialState evs).1.buttons % 256 = (run K initialState evs).1.buttons ∧
      (run K initialState evs).1.buttons / 256 = 0 := by
  have h : (run K initialState evs).1.buttons ≤ 0xFF :=
    run_buttons_le K evs initialState (by decide)
  refine ⟨h, fun arg harg => ⟨?_, ?_, ?_⟩⟩
  · rw [ioctl_TUX_BUTTONS]
    simp only [tuxctl_ioctl_buttons, if_neg harg]
  · omega
  · omega

/-- Witness of C9: init, an acknowledgment, a button packet, a display
request, a reset packet, then the query through the pointer `0x1000`. -/
theorem buttons_low_byte_witness :
    (tuxctl_ioctl sampleConsts
        (run sampleConsts initialState
          [.ioctl 0x4513 0, .packet 0x40 0 0, .packet 0x41 0x8A 0x86,
           .ioctl 0x4510 0x000F1234, .packet 0x42 0 0]).1
        sampleConsts.TUX_BUTTONS 0x1000).store = some (0x1000, 0x6A) := by
  rw [((buttons_low_byte sampleConsts
    [.ioctl 0x4513 0, .packet 0x40 0 0, .packet 0x41 0x8A 0x86,
     .ioctl 0x4510 0x000F1234, .packet 0x42 0 0]).2 0x1000 (by decide)).1]
  decide

/-! ### The display encoding table -/

/-- C10: in the layout A = 0x80, E = 0x40, F = 0x20, dp = 0x10, G = 0x08,
C = 0x04, B = 0x02, D = 0x01, the entry of `hex_bitmask` for every hex digit
`d` is the OR of the bits of the segments of the glyph of `d`, a segment bit
is set in the entry exactly when the segment belongs to the glyph, and the dp
bit is clear. -/
theorem hex_bitmask_glyphs (d : Nat) (hd : d < 16) :
    hex_bitmask.getD d 0 = glyphBits d ∧
    (∀ s : Segment, hex_bitmask.getD d 0 &&& s.bit ≠ 0 ↔ s ∈ glyph d) ∧
    hex_bitmask.getD d 0 &&& dpBit = 0 := by
  interval_cases d <;>
    exact ⟨by decide, fun s => by cases s <;> decide, by decide⟩

/-- Witness of C10: the digit `b` (11) has entry `0x6D`, segments C D E F G. -/
theorem hex_bitmask_glyphs_witness :
    (11 : Nat) < 16 ∧ hex_bitmask.getD 11 0 = 0x6D ∧ glyphBits 11 = 0x6D :=
  ⟨by decide, by decide, (hex_bitmask_glyphs 11 (by decide)).1 ▸ by decide⟩

/-! ### Acknowledgments and unrecognized packets -/

theorem handle_other (K : Consts) (st : DeviceState) (p0 p1 p2 : Nat)
    (h1 : p0 ≠ K.MTCP_ACK) (h2 : p0 ≠ K.MTCP_BIOC_EVENT) (h3 : p0 ≠ K.MTCP_RESET) :
    tuxctl_handle_packet K st p0 p1 p2 = (st, []) := by
  simp only [tuxctl_handle_packet, if_neg h1, if_neg h2, if_neg h3]

/-- C11: a packet with opcode `MTCP_ACK`, whatever its two other bytes, leaves
`ack = 1`, keeps `buttons` and `leds`, and writes nothing. -/
theorem ack_frame (K : Consts) (st : DeviceState) (p1 p2 : Nat) :
    (tuxctl_handle_packet K st K.MTCP_ACK p1 p2).1.ack = 1 ∧
    (tuxctl_handle_packet K st K.MTCP_ACK p1 p2).1.buttons = st.buttons ∧
    (tuxctl_handle_packet K st K.MTCP_ACK p1 p2).1.leds = st.leds ∧
    (tuxctl_handle_packet K st K.MTCP_ACK p1 p2).2 = [] := by
  rw [handle_ack]
  exact ⟨rfl, rfl, rfl, rfl⟩

/-- C12: a packet whose first byte is none of `MTCP_ACK`, `MTCP_BIOC_EVENT`,
`MTCP_RESET` leaves the globals as they are and writes nothing; and for all
three bytes whatever `tuxctl_handle_packet` takes one of its four branches:
it is a total function of the globals and the bytes. -/
theorem unrecognized_packet_ignored (K : Consts) (st : DeviceState) (p0 p1 p2 : Nat) :
    (p0 ≠ K.MTCP_ACK → p0 ≠ K.MTCP_BIOC_EVENT → p0 ≠ K.MTCP_RESET →
      (tuxctl_handle_packet K st p0 p1 p2).1 = st ∧
      (tuxctl_handle_packet K st p0 p1 p2).2 = []) ∧
    (tuxctl_handle_packet K st p0 p1 p2 = ({ st with ack := 1 }, []) ∨
     tuxctl_handle_packet K st p0 p1 p2 = ({ st with buttons := eventMask p1 p2 }, []) ∨
     tuxctl_handle_packet K st p0 p1 p2
       = ((tuxctl_ioctl_setLED K st st.leds).st,
          [K.MTCP_BIOC_ON, K.MTCP_LED_USR] :: (tuxctl_ioctl_setLED K st st.leds).tx) ∨
     tuxctl_handle_packet K st p0 p1 p2 = (st, [])) := by
  constructor
  · intro h1 h2 h3
    rw [handle_other K st p0 p1 p2 h1 h2 h3]
    exact ⟨rfl, rfl⟩
  · by_cases h1 : p0 = K.MTCP_ACK
    · left; rw [h1, handle_ack]
    · by_cases h2 : p0 = K.MTCP_BIOC_EVENT
      · right; left; rw [h2, handle_event]
      · by_cases h3 : p0 = K.MTCP_RESET
        · right; right; left; rw [h3, handle_reset]
        · right; right; right; exact handle_other K st p0 p1 p2 h1 h2 h3

/-- Witness of C12: the opcode `0x99` with a button mask and a saved value in
place. -/
theorem unrecognized_packet_ignored_witness :
    tuxctl_handle_packet sampleConsts { leds := 0x000F1234, buttons := 0x6A, ack := 0 } 0x99 0x12 0x34
      = ({ leds := 0x000F1234, buttons := 0x6A, ack := 0 }, []) :=
  Prod.ext
    ((unrecognized_packet_ignored sampleConsts { leds := 0x000F1234, buttons := 0x6A, ack := 0 }
      0x99 0x12 0x34).1 (by decide) (by decide) (by decide)).1
    ((unrecognized_packet_ignored sampleConsts { leds := 0x000F1234, buttons := 0x6A, ack := 0 }
      0x99 0x12 0x34).1 (by decide) (by decide) (by decide)).2

/-! ### What the encoder reads of its argument -/

theorem testBit_fifteen_ge (j : Nat) (hj : 4 ≤ j) : Nat.testBit 15 j = false := by
  have h := Nat.testBit_two_pow_sub_one 4 j
  have hn : ¬ j < 4 := by omega
  simpa [hn] using h

theorem field_mask_testBit (k : Nat) (hk : k < 20 ∨ (24 ≤ k ∧ k < 28)) :
    Nat.testBit 0x0F0FFFFF k = true := by
  rcases hk with h | ⟨h1, h2⟩
  · interval_cases k <;> decide
  · interval_cases k <;> decide

theorem nibble_and_field_mask (v i : Nat) (hi : i < 4) :
    ((v &&& 0x0F0FFFFF) >>> (4 * i)) &&& 0xF = (v >>> (4 * i)) &&& 0xF := by
  apply Nat.eq_of_testBit_eq
  intro j
  rw [Nat.testBit_and, Nat.testBit_and, Nat.testBit_shiftRight, Nat.testBit_shiftRight,
    Nat.testBit_and]
  by_cases hj : j < 4
  · rw [field_mask_testBit (4 * i + j) (by omega), Bool.and_true]
  · rw [testBit_fifteen_ge j (by omega), Bool.and_false, Bool.and_false]

theorem specSegment_congr (v1 v2 i : Nat)
    (hact : v1.testBit (16 + i) = v2.testBit (16 + i))
    (hrest : v1.testBit (16 + i) = true →
      (v1 >>> (4 * i)) &&& 0xF = (v2 >>> (4 * i)) &&& 0xF ∧
      v1.testBit (24 + i) = v2.testBit (24 + i)) :
    specSegment v1 i = specSegment v2 i := by
  unfold specSegment
  by_cases h : v1.testBit (16 + i) = true
  · obtain ⟨hn, hd⟩ := hrest h
    rw [← hact, ← hn, ← hd]
  · have h2 : ¬ v2.testBit (16 + i) = true := by rw [← hact]; exact h
    rw [if_neg h, if_neg h2]

theorem specSegment_and_field_mask (v i : Nat) (hi : i < 4) :
    specSegment (v &&& 0x0F0FFFFF) i = specSegment v i := by
  apply specSegment_congr
  · rw [Nat.testBit_and, field_mask_testBit (16 + i) (by omega), Bool.and_true]
  · intro _
    refine ⟨nibble_and_field_mask v i hi, ?_⟩
    rw [Nat.testBit_and, field_mask_testBit (24 + i) (by omega), Bool.and_true]

theorem specLedPacket_congr (K : Consts) (v1 v2 : Nat)
    (h : ∀ i, i < 4 → specSegment v1 i = specSegment v2 i) :
    specLedPacket K v1 = specLedPacket K v2 := by
  unfold specLedPacket
  rw [h 0 (by decide), h 1 (by decide), h 2 (by decide), h 3 (by decide)]

theorem sentSegment_eq (K : Consts) (st : DeviceState) (v i : Nat) (h : st.ack ≠ 0)
    (hi : i < 4) : sentSegment K st v i = specSegment v i := by
  unfold sentSegment
  rw [setLED_open K st v h]
  interval_cases i <;> rfl

/-- C13: with no command outstanding, the buffer a display request writes
depends only on bits 16..19 of the value and, for the positions whose bit
`16 + i` is set, on nibble `i` and on bit `24 + i`: two values that agree on
these give the same buffer; the value `v` and `v AND 0x0F0FFFFF` give the same
buffer and the call returns 0; and the byte of a position whose bit `16 + i`
is clear is 0. -/
theorem setLED_input_masking (K : Consts) (st : DeviceState) (v v2 : Nat) (h : st.ack = 1) :
    ((∀ i, i < 4 → v.testBit (16 + i) = v2.testBit (16 + i)) →
      (∀ i, i < 4 → v.testBit (16 + i) = true →
        (v >>> (4 * i)) &&& 0xF = (v2 >>> (4 * i)) &&& 0xF ∧
        v.testBit (24 + i) = v2.testBit (24 + i)) →
      (tuxctl_ioctl_setLED K st v).tx = (tuxctl_ioctl_setLED K st v2).tx) ∧
    (tuxctl_ioctl_setLED K st v).tx = (tuxctl_ioctl_setLED K st (v &&& 0x0F0FFFFF)).tx ∧
    (tuxctl_ioctl_setLED K st v).ret = 0 ∧
    (∀ i, i < 4 → v.testBit (16 + i) = false → sentSegment K st v i = 0) := by
  have hne : st.ack ≠ 0 := by omega
  refine ⟨?_, ?_, ?_, ?_⟩
  · intro hact hrest
    rw [setLED_open K st v hne, setLED_open K st v2 hne]
    show [specLedPacket K v] = [specLedPacket K v2]
    rw [specLedPacket_congr K v v2
      (fun i hi => specSegment_congr v v2 i (hact i hi) (hrest i hi))]
  · rw [setLED_open K st v hne, setLED_open K st _ hne]
    show [specLedPacket K v] = [specLedPacket K (v &&& 0x0F0FFFFF)]
    rw [specLedPacket_congr K (v &&& 0x0F0FFFFF) v
      (fun i hi => specSegment_and_field_mask v i hi)]
  · rw [setLED_open K st v hne]
  · intro i hi hoff
    rw [sentSegment_eq K st v i hne hi]
    unfold specSegment
    rw [hoff]
    rfl

/-- Witness of C13: `0xF2F5ABCD` and `0x0A357B1D` agree on the active mask 5
and on positions 0 and 2 (nibbles `D` and `B`, no decimal point) and differ
elsewhere; both give the same buffer, and the byte of position 1 is 0. -/
theorem setLED_input_masking_witness :
    (tuxctl_ioctl_setLED sampleConsts initialState 0xF2F5ABCD).tx
        = (tuxctl_ioctl_setLED sampleConsts initialState 0x0A357B1D).tx ∧
    (tuxctl_ioctl_setLED sampleConsts initialState 0xF2F5ABCD).tx
        = (tuxctl_ioctl_setLED sampleConsts initialState (0xF2F5ABCD &&& 0x0F0FFFFF)).tx ∧
    sentSegment sampleConsts initialState 0xF2F5ABCD 1 = 0 :=
  ⟨(setLED_input_masking sampleConsts initialState 0xF2F5ABCD 0x0A357B1D rfl).1
      (by intro i hi; interval_cases i <;> decide)
      (by intro i hi; interval_cases i <;> decide),
   (setLED_input_masking sampleConsts initialState 0xF2F5ABCD 0x0A357B1D rfl).2.1,
   (setLED_input_masking sampleConsts initialState 0xF2F5ABCD 0x0A357B1D rfl).2.2.2 1
      (by decide) (by decide)⟩

/-! ### The dispatch on `cmd` -/

theorem ioctl_labels_ne (K : Consts) :
    (K.TUX_INIT ≠ K.TUX_BUTTONS ∧ K.TUX_INIT ≠ K.TUX_SET_LED ∧ K.TUX_INIT ≠ K.TUX_LED_ACK ∧
      K.TUX_INIT ≠ K.TUX_LED_REQUEST ∧ K.TUX_INIT ≠ K.TUX_READ_LED) ∧
    (K.TUX_BUTTONS ≠ K.TUX_SET_LED ∧ K.TUX_BUTTONS ≠ K.TUX_LED_ACK ∧
      K.TUX_BUTTONS ≠ K.TUX_LED_REQUEST ∧ K.TUX_BUTTONS ≠ K.TUX_READ_LED) ∧
    (K.TUX_SET_LED ≠ K.TUX_LED_ACK ∧ K.TUX_SET_LED ≠ K.TUX_LED_REQUEST ∧
      K.TUX_SET_LED ≠ K.TUX_READ_LED) ∧
    (K.TUX_LED_ACK ≠ K.TUX_LED_REQUEST ∧ K.TUX_LED_ACK ≠ K.TUX_READ_LED) ∧
    K.TUX_LED_REQUEST ≠ K.TUX_READ_LED := by
  have hl := K.ioctl_labels
  simp only [List.nodup_cons, List.mem_cons, List.mem_singleton, not_or, List.not_mem_nil,
    not_false_eq_true, and_true, List.nodup_nil] at hl
  exact hl

theorem ioctl_TUX_INIT (K : Consts) (st : DeviceState) (arg : Nat) :
    tuxctl_ioctl K st K.TUX_INIT arg = tuxctl_ioctl_init K st := by
  simp only [tuxctl_ioctl, if_true]

theorem ioctl_TUX_SET_LED (K : Consts) (st : DeviceState) (arg : Nat) :
    tuxctl_ioctl K st K.TUX_SET_LED arg = tuxctl_ioctl_setLED K st arg := by
  obtain ⟨⟨_, h1, _⟩, ⟨h2, _⟩, _⟩ := ioctl_labels_ne K
  simp only [tuxctl_ioctl, if_neg h1.symm, if_neg h2.symm, if_true]

theorem ioctl_reserved (K : Consts) (st : DeviceState) (cmd arg : Nat)
    (h : cmd = K.TUX_LED_ACK ∨ cmd = K.TUX_LED_REQUEST ∨ cmd = K.TUX_READ_LED) :
    tuxctl_ioctl K st cmd arg = { ret := 0, st := st, tx := [], store := none } := by
  obtain ⟨⟨_, _, a1, a2, a3⟩, ⟨_, b1, b2, b3⟩, ⟨c1, c2, c3⟩, _⟩ := ioctl_labels_ne K
  rcases h with h | h | h
  · rw [h]
    simp only [tuxctl_ioctl, if_neg a1.symm, if_neg b1.symm, if_neg c1.symm, if_true]
  · rw [h]
    simp only [tuxctl_ioctl, if_neg a2.symm, if_neg b2.symm, if_neg c2.symm, if_true, ite_self]
  · rw [h]
    simp only [tuxctl_ioctl, if_neg a3.symm, if_neg b3.symm, if_neg c3.symm, if_true, ite_self]

theorem ioctl_undefined (K : Consts) (st : DeviceState) (cmd arg : Nat)
    (h : cmd ∉ [K.TUX_INIT, K.TUX_BUTTONS, K.TUX_SET_LED, K.TUX_LED_ACK, K.TUX_LED_REQUEST,
      K.TUX_READ_LED]) :
    tuxctl_ioctl K st cmd arg
      = { ret := -(K.EINVAL : Int), st := st, tx := [], store := none } := by
  simp only [List.mem_cons, List.mem_singleton, not_or, List.not_mem_nil, or_false] at h
  obtain ⟨h1, h2, h3, h4, h5, h6⟩ := h
  simp only [tuxctl_ioctl, if_neg h1, if_neg h2, if_neg h3, if_neg h4, if_neg h5, if_neg h6]

theorem setLED_ret (K : Consts) (st : DeviceState) (v : Nat) :
    (tuxctl_ioctl_setLED K st v).ret = 0 := by
  by_cases h : st.ack = 0
  · rw [setLED_closed K st v h]
  · rw [setLED_open K st v h]

/-- C14: `tuxctl_ioctl` with `cmd` one of `TUX_LED_ACK`, `TUX_LED_REQUEST`,
`TUX_READ_LED` returns 0, writes nothing and changes no global; with
`TUX_INIT` or `TUX_SET_LED` it returns 0; with a `cmd` outside the six
defined ones it returns the negative code `-EINVAL`, writes nothing and
changes no global. -/
theorem ioctl_dispatch (K : Consts) (st : DeviceState) (cmd arg : Nat) :
    (cmd = K.TUX_LED_ACK ∨ cmd = K.TUX_LED_REQUEST ∨ cmd = K.TUX_READ_LED →
      tuxctl_ioctl K st cmd arg = { ret := 0, st := st, tx := [], store := none }) ∧
    (cmd = K.TUX_INIT ∨ cmd = K.TUX_SET_LED → (tuxctl_ioctl K st cmd arg).ret = 0) ∧
    (cmd ∉ [K.TUX_INIT, K.TUX_BUTTONS, K.TUX_SET_LED, K.TUX_LED_ACK, K.TUX_LED_REQUEST,
        K.TUX_READ_LED] →
      tuxctl_ioctl K st cmd arg
        = { ret := -(K.EINVAL : Int), st := st, tx := [], store := none } ∧
      (tuxctl_ioctl K st cmd arg).ret < 0) := by
  refine ⟨ioctl_reserved K st cmd arg, ?_, ?_⟩
  · rintro (h | h)
    · rw [h, ioctl_TUX_INIT, init_eq]
    · rw [h, ioctl_TUX_SET_LED, setLED_ret]
  · intro h
    have hpos := K.EINVAL_pos
    rw [ioctl_undefined K st cmd arg h]
    refine ⟨rfl, ?_⟩
    show -(K.EINVAL : Int) < 0
    omega

/-- Witness of C14: the reserved request `TUX_LED_REQUEST`, an init request,
and the undefined request number 7, each with a command outstanding. -/
theorem ioctl_dispatch_witness :
    tuxctl_ioctl sampleConsts { leds := 3, buttons := 0x5A, ack := 0 } 0x4515 9
      = { ret := 0, st := { leds := 3, buttons := 0x5A, ack := 0 }, tx := [], store := none } ∧
    (tuxctl_ioctl sampleConsts { leds := 3, buttons := 0x5A, ack := 0 } 0x4513 9).ret = 0 ∧
    tuxctl_ioctl sampleConsts { leds := 3, buttons := 0x5A, ack := 0 } 7 9
      = { ret := -22, st := { leds := 3, buttons := 0x5A, ack := 0 }, tx := [], store := none } :=
  ⟨(ioctl_dispatch sampleConsts { leds := 3, buttons := 0x5A, ack := 0 } 0x4515 9).1
      (Or.inr (Or.inl rfl)),
   (ioctl_dispatch sampleConsts { leds := 3, buttons := 0x5A, ack := 0 } 0x4513 9).2.1
      (Or.inl rfl),
   ((ioctl_dispatch sampleConsts { leds := 3, buttons := 0x5A, ack := 0 } 7 9).2.2
      (by decide)).1⟩

/-! ### The decimal-point bit -/

theorem hex_entry_dp (n : Nat) :
    (hex_bitmask.getD (n &&& 0xF) 0).testBit 4 = false ∧
    (hex_bitmask.getD (n &&& 0xF) 0 ||| 0x10).testBit 4 = true ∧
    (hex_bitmask.getD (n &&& 0xF) 0 ||| 0x10) &&& 0xEF = hex_bitmask.getD (n &&& 0xF) 0 ∧
    hex_bitmask.getD (n &&& 0xF) 0 &&& 0xEF = hex_bitmask.getD (n &&& 0xF) 0 := by
  have h : n &&& 0xF < 16 := by
    have h2 : n &&& 0xF = n % 2 ^ 4 := Nat.and_pow_two_sub_one_eq_mod n 4
    omega
  generalize n &&& 0xF = k at h
  interval_cases k <;> decide

theorem specSegment_dp (v i : Nat) :
    (specSegment v i).testBit 4 = (v.testBit (16 + i) && v.testBit (24 + i)) := by
  obtain ⟨h1, h2, _, _⟩ := hex_entry_dp (v >>> (4 * i))
  unfold specSegment
  by_cases ha : v.testBit (16 + i) = true
  · by_cases hd : v.testBit (24 + i) = true
    · rw [if_pos ha, if_pos hd, h2, ha, hd]; rfl
    · rw [if_pos ha, if_neg hd, Nat.or_zero, h1, ha]
      simp only [Bool.not_eq_true] at hd
      rw [hd]; rfl
  · rw [if_neg ha]
    simp only [Bool.not_eq_true] at ha
    rw [ha]; rfl

theorem specSegment_digit (v i : Nat) (ha : v.testBit (16 + i) = true) :
    specSegment v i &&& 0xEF = hex_bitmask.getD ((v >>> (4 * i)) &&& 0xF) 0 := by
  obtain ⟨_, _, h3, h4⟩ := hex_entry_dp (v >>> (4 * i))
  unfold specSegment
  by_cases hd : v.testBit (24 + i) = true
  · rw [if_pos ha, if_pos hd, h3]
  · rw [if_pos ha, if_neg hd, Nat.or_zero, h4]

theorem specSegment_plain (v i : Nat) (ha : v.testBit (16 + i) = true)
    (hd : v.testBit (24 + i) = false) :
    specSegment v i = hex_bitmask.getD ((v >>> (4 * i)) &&& 0xF) 0 := by
  unfold specSegment
  rw [if_pos ha, hd]
  simp

/-- C15: for a value `v` written by a display request and every position
`i`, bit `0x10` (bit 4) of segment byte `i` is set exactly when bit `16 + i`
and bit `24 + i` of `v` are set; when bit `16 + i` is set, the segment byte
without bit `0x10` is the table entry of nibble `i`; so with all four
positions active and no decimal point the four segment bytes are the table
entries of the four nibbles in position order, bit `0x10` clear on each. -/
theorem dp_bit_and_digit (K : Consts) (st : DeviceState) (v : Nat) (h : st.ack = 1) :
    (∀ i, i < 4 → ((sentSegment K st v i).testBit 4 = true ↔
      v.testBit (16 + i) = true ∧ v.testBit (24 + i) = true)) ∧
    (∀ i, i < 4 → v.testBit (16 + i) = true →
      sentSegment K st v i &&& 0xEF = hex_bitmask.getD ((v >>> (4 * i)) &&& 0xF) 0) ∧
    ((∀ i, i < 4 → v.testBit (16 + i) = true ∧ v.testBit (24 + i) = false) →
      (tuxctl_ioctl_setLED K st v).tx =
        [[K.MTCP_LED_SET, 0x0F,
          hex_bitmask.getD ((v >>> (4 * 0)) &&& 0xF) 0,
          hex_bitmask.getD ((v >>> (4 * 1)) &&& 0xF) 0,
          hex_bitmask.getD ((v >>> (4 * 2)) &&& 0xF) 0,
          hex_bitmask.getD ((v >>> (4 * 3)) &&& 0xF) 0]] ∧
      ∀ i, i < 4 → (sentSegment K st v i).testBit 4 = false) := by
  have hne : st.ack ≠ 0 := by omega
  refine ⟨?_, ?_, ?_⟩
  · intro i hi
    rw [sentSegment_eq K st v i hne hi, specSegment_dp, Bool.and_eq_true]
  · intro i hi ha
    rw [sentSegment_eq K st v i hne hi, specSegment_digit v i ha]
  · intro hall
    constructor
    · rw [setLED_open K st v hne]
      show [specLedPacket K v] = _
      unfold specLedPacket
      rw [specSegment_plain v 0 (hall 0 (by decide)).1 (hall 0 (by decide)).2,
        specSegment_plain v 1 (hall 1 (by decide)).1 (hall 1 (by decide)).2,
        specSegment_plain v 2 (hall 2 (by decide)).1 (hall 2 (by decide)).2,
        specSegment_plain v 3 (hall 3 (by decide)).1 (hall 3 (by decide)).2]
    · intro i hi
      rw [sentSegment_eq K st v i hne hi, specSegment_dp, (hall i hi).2, Bool.and_false]

/-- Witness of C15: the value `0x000F4321`, digits 1, 2, 3, 4 in positions 0
to 3, all active, no decimal point. -/
theorem dp_bit_and_digit_witness :
    (tuxctl_ioctl_setLED sampleConsts initialState 0x000F4321).tx
        = [[0xC6, 0x0F, 0x06, 0xCB, 0x8F, 0x2E]] ∧
    ∀ i, i < 4 → (sentSegment sampleConsts initialState 0x000F4321 i).testBit 4 = false := by
  have hall : ∀ i, i < 4 →
      Nat.testBit 0x000F4321 (16 + i) = true ∧ Nat.testBit 0x000F4321 (24 + i) = false := by
    intro i hi
    interval_cases i <;> decide
  have h := (dp_bit_and_digit sampleConsts initialState 0x000F4321 rfl).2.2 hall
  refine ⟨?_, h.2⟩
  rw [h.1]
  decide

/-! ### Reset notifications and the gate -/

theorem setLED_leds_self (K : Consts) (st : DeviceState) :
    (tuxctl_ioctl_setLED K st st.leds).st.leds = st.leds := by
  by_cases h : st.ack = 0
  · rw [setLED_closed K st _ h]
  · rw [setLED_open K st _ h]

/-- C16: a packet with opcode `MTCP_RESET` always writes the two bytes
`MTCP_BIOC_ON`, `MTCP_LED_USR` first, whatever `ack` is, and keeps `buttons`
and `leds`; with `ack = 1` it then writes the six-byte buffer of the saved
value `leds`, nothing more, and leaves `ack = 0`; with `ack = 0` it writes
those two bytes only and leaves all globals as they were. -/
theorem reset_gated (K : Consts) (st : DeviceState) (p1 p2 : Nat) :
    (∃ rest, (tuxctl_handle_packet K st K.MTCP_RESET p1 p2).2
      = [K.MTCP_BIOC_ON, K.MTCP_LED_USR] :: rest) ∧
    (tuxctl_handle_packet K st K.MTCP_RESET p1 p2).1.buttons = st.buttons ∧
    (tuxctl_handle_packet K st K.MTCP_RESET p1 p2).1.leds = st.leds ∧
    (st.ack = 1 →
      (tuxctl_handle_packet K st K.MTCP_RESET p1 p2).2
        = [[K.MTCP_BIOC_ON, K.MTCP_LED_USR],
           [K.MTCP_LED_SET, 0x0F, specSegment st.leds 0, specSegment st.leds 1,
            specSegment st.leds 2, specSegment st.leds 3]] ∧
      (tuxctl_handle_packet K st K.MTCP_RESET p1 p2).1.ack = 0) ∧
    (st.ack = 0 →
      (tuxctl_handle_packet K st K.MTCP_RESET p1 p2).2 = [[K.MTCP_BIOC_ON, K.MTCP_LED_USR]] ∧
      (tuxctl_handle_packet K st K.MTCP_RESET p1 p2).1 = st) := by
  rw [handle_reset]
  refine ⟨⟨_, rfl⟩, setLED_buttons K st st.leds, setLED_leds_self K st, ?_, ?_⟩
  · intro h
    have hne : st.ack ≠ 0 := by omega
    rw [setLED_open K st st.leds hne]
    exact ⟨rfl, rfl⟩
  · intro h
    rw [setLED_closed K st st.leds h]
    exact ⟨rfl, rfl⟩

/-- Witness of C16: the value `0x000F1234` saved, once with no command
outstanding and once with one. -/
theorem reset_gated_witness :
    ((tuxctl_handle_packet sampleConsts { leds := 0x000F1234, buttons := 0x6A, ack := 1 }
        sampleConsts.MTCP_RESET 0 0).2
        = [[0xC3, 0xC7], [0xC6, 0x0F, 0x2E, 0x8F, 0xCB, 0x06]] ∧
      (tuxctl_handle_packet sampleConsts { leds := 0x000F1234, buttons := 0x6A, ack := 1 }
        sampleConsts.MTCP_RESET 0 0).1.ack = 0) ∧
    ((tuxctl_handle_packet sampleConsts { leds := 0x000F1234, buttons := 0x6A, ack := 0 }
        sampleConsts.MTCP_RESET 0 0).2 = [[0xC3, 0xC7]] ∧
      (tuxctl_handle_packet sampleConsts { leds := 0x000F1234, buttons := 0x6A, ack := 0 }
        sampleConsts.MTCP_RESET 0 0).1 = { leds := 0x000F1234, buttons := 0x6A, ack := 0 }) := by
  have h1 := (reset_gated sampleConsts { leds := 0x000F1234, buttons := 0x6A, ack := 1 }
    0 0).2.2.2.1 rfl
  have h0 := (reset_gated sampleConsts { leds := 0x000F1234, buttons := 0x6A, ack := 0 }
    0 0).2.2.2.2 rfl
  refine ⟨⟨?_, h1.2⟩, h0⟩
  rw [h1.1]
  decide

/-! ### Event sequences without an acknowledgment -/

theorem ioctl_cases (K : Consts) (st : DeviceState) (cmd arg : Nat) :
    (((tuxctl_ioctl K st cmd arg).tx = [] ∨
        (tuxctl_ioctl K st cmd arg).tx = [[K.MTCP_BIOC_ON, K.MTCP_LED_USR]]) ∧
      (st.ack = 0 → (tuxctl_ioctl K st cmd arg).st.ack = 0)) ∨
    (st.ack ≠ 0 ∧ (tuxctl_ioctl K st cmd arg).st.ack = 0 ∧
      ∃ P : List Nat, P.length = 6 ∧ (tuxctl_ioctl K st cmd arg).tx = [P]) := by
  unfold tuxctl_ioctl
  split_ifs
  · rw [init_eq]
    exact Or.inl ⟨Or.inr rfl, fun _ => rfl⟩
  · unfold tuxctl_ioctl_buttons
    split_ifs
    · exact Or.inl ⟨Or.inl rfl, id⟩
    · exact Or.inl ⟨Or.inl rfl, id⟩
  · by_cases h : st.ack = 0
    · rw [setLED_closed K st arg h]
      exact Or.inl ⟨Or.inl rfl, id⟩
    · rw [setLED_open K st arg h]
      exact Or.inr ⟨h, rfl, specLedPacket K arg, rfl, rfl⟩
  all_goals exact Or.inl ⟨Or.inl rfl, id⟩

theorem packet_cases (K : Consts) (st : DeviceState) (p0 p1 p2 : Nat)
    (hp : p0 ≠ K.MTCP_ACK) :
    (((tuxctl_handle_packet K st p0 p1 p2).2 = [] ∨
        (tuxctl_handle_packet K st p0 p1 p2).2 = [[K.MTCP_BIOC_ON, K.MTCP_LED_USR]]) ∧
      (st.ack = 0 → (tuxctl_handle_packet K st p0 p1 p2).1.ack = 0)) ∨
    (st.ack ≠ 0 ∧ (tuxctl_handle_packet K st p0 p1 p2).1.ack = 0 ∧
      ∃ P : List Nat, P.length = 6 ∧
        (tuxctl_handle_packet K st p0 p1 p2).2 = [[K.MTCP_BIOC_ON, K.MTCP_LED_USR], P]) := by
  by_cases h2 : p0 = K.MTCP_BIOC_EVENT
  · rw [h2, handle_event]
    exact Or.inl ⟨Or.inl rfl, id⟩
  · by_cases h3 : p0 = K.MTCP_RESET
    · rw [h3, handle_reset]
      by_cases h : st.ack = 0
      · rw [setLED_closed K st _ h]
        exact Or.inl ⟨Or.inr rfl, id⟩
      · rw [setLED_open K st _ h]
        exact Or.inr ⟨h, rfl, specLedPacket K st.leds, rfl, rfl⟩
    · rw [handle_other K st p0 p1 p2 hp h2 h3]
      exact Or.inl ⟨Or.inl rfl, id⟩

theorem step_cases (K : Consts) (st : DeviceState) (e : Event) (he : e.isAck K = false) :
    (((step K st e).2 = [] ∨ (step K st e).2 = [[K.MTCP_BIOC_ON, K.MTCP_LED_USR]]) ∧
      (st.ack = 0 → (step K st e).1.ack = 0)) ∨
    (st.ack ≠ 0 ∧ (step K st e).1.ack = 0 ∧
      ∃ P : List Nat, P.length = 6 ∧
        ((step K st e).2 = [P] ∨ (step K st e).2 = [[K.MTCP_BIOC_ON, K.MTCP_LED_USR], P])) := by
  cases e with
  | ioctl cmd arg =>
    rcases ioctl_cases K st cmd arg with h | ⟨h1, h2, P, hP, hx⟩
    · exact Or.inl h
    · exact Or.inr ⟨h1, h2, P, hP, Or.inl hx⟩
  | packet p0 p1 p2 =>
    have hp : p0 ≠ K.MTCP_ACK := by
      simpa [Event.isAck] using he
    rcases packet_cases K st p0 p1 p2 hp with h | ⟨h1, h2, P, hP, hx⟩
    · exact Or.inl h
    · exact Or.inr ⟨h1, h2, P, hP, Or.inr hx⟩

theorem step_ack_tx (K : Consts) (st : DeviceState) (e : Event) (he : e.isAck K = true) :
    (step K st e).2 = [] := by
  cases e with
  | ioctl cmd arg => simp [Event.isAck] at he
  | packet p0 p1 p2 =>
    have hp : p0 = K.MTCP_ACK := by simpa [Event.isAck] using he
    show (tuxctl_handle_packet K st p0 p1 p2).2 = []
    rw [hp, handle_ack]

theorem run_cons (K : Consts) (st : DeviceState) (e : Event) (es : List Event) :
    run K st (e :: es)
      = ((run K (step K st e).1 es).1, (step K st e).2 ++ (run K (step K st e).1 es).2) :=
  rfl

theorem run_append (K : Consts) (es1 es2 : List Event) :
    ∀ st : DeviceState, run K st (es1 ++ es2)
      = ((run K (run K st es1).1 es2).1, (run K st es1).2 ++ (run K (run K st es1).1 es2).2) := by
  induction es1 with
  | nil => intro st; rfl
  | cons e es ih =>
    intro st
    rw [List.cons_append, run_cons, ih, run_cons, List.append_assoc]

theorem ledPackets_append (a b : List (List Nat)) :
    ledPackets (a ++ b) = ledPackets a ++ ledPackets b := by
  unfold ledPackets
  rw [List.filter_append]

theorem ledPackets_init (K : Consts) (tx : List (List Nat))
    (h : ∀ buf ∈ tx, buf = [K.MTCP_BIOC_ON, K.MTCP_LED_USR]) : ledPackets tx = [] := by
  unfold ledPackets
  rw [List.filter_eq_nil_iff]
  intro buf hb
  rw [h buf hb]
  simp

theorem closed_run (K : Consts) (evs : List Event) :
    ∀ st : DeviceState, st.ack = 0 → (∀ e ∈ evs, e.isAck K = false) →
      (run K st evs).1.ack = 0 ∧
      ∀ buf ∈ (run K st evs).2, buf = [K.MTCP_BIOC_ON, K.MTCP_LED_USR] := by
  induction evs with
  | nil =>
    intro st h _
    exact ⟨h, fun buf hb => absurd hb (List.not_mem_nil buf)⟩
  | cons e es ih =>
    intro st h hno
    have he := hno e (List.mem_cons_self e es)
    have hes : ∀ x ∈ es, x.isAck K = false := fun x hx => hno x (List.mem_cons_of_mem e hx)
    rw [run_cons]
    rcases step_cases K st e he with ⟨htx, hack⟩ | ⟨hne, _⟩
    · obtain ⟨ih1, ih2⟩ := ih (step K st e).1 (hack h) hes
      refine ⟨ih1, ?_⟩
      intro buf hb
      rcases List.mem_append.mp hb with hb | hb
      · rcases htx with htx | htx
        · rw [htx] at hb; exact absurd hb (List.not_mem_nil buf)
        · rw [htx] at hb; exact List.mem_singleton.mp hb
      · exact ih2 buf hb
    · exact absurd h hne

theorem ledPackets_step_quiet (K : Consts) (tx : List (List Nat))
    (h : tx = [] ∨ tx = [[K.MTCP_BIOC_ON, K.MTCP_LED_USR]]) : ledPackets tx = [] := by
  apply ledPackets_init K
  intro buf hb
  rcases h with h | h
  · rw [h] at hb; exact absurd hb (List.not_mem_nil buf)
  · rw [h] at hb; exact List.mem_singleton.mp hb

theorem ledPackets_step_sent (K : Consts) (tx : List (List Nat)) (P : List Nat)
    (hP : P.length = 6) (h : tx = [P] ∨ tx = [[K.MTCP_BIOC_ON, K.MTCP_LED_USR], P]) :
    ledPackets tx = [P] := by
  rcases h with h | h
  · rw [h]; simp [ledPackets, hP]
  · rw [h]; simp [ledPackets, hP]

theorem count_le_one (K : Consts) (evs : List Event) :
    ∀ st : DeviceState, (∀ e ∈ evs, e.isAck K = false) →
      (ledPackets (run K st evs).2).length ≤ 1 := by
  induction evs with
  | nil => intro st _; exact Nat.zero_le 1
  | cons e es ih =>
    intro st hno
    have he := hno e (List.mem_cons_self e es)
    have hes : ∀ x ∈ es, x.isAck K = false := fun x hx => hno x (List.mem_cons_of_mem e hx)
    rw [run_cons, ledPackets_append, List.length_append]
    rcases step_cases K st e he with ⟨htx, _⟩ | ⟨_, hack, P, hP, hx⟩
    · rw [ledPackets_step_quiet K _ htx]
      have := ih (step K st e).1 hes
      simpa using this
    · rw [ledPackets_step_sent K _ P hP hx,
        ledPackets_init K _ (closed_run K es (step K st e).1 hack hes).2]
      exact Nat.le_refl 1

/-- C17: with a command outstanding (`ack = 0`), every `tuxctl_ioctl` call,
whatever `cmd` and `arg`, and every packet whose opcode is not `MTCP_ACK`
leave `ack = 0`; hence over any event sequence without an acknowledgment
packet, started with `ack = 0`, `ack` is 0 at the end, no six-byte LED buffer
is written, and every buffer written is the pair `MTCP_BIOC_ON`,
`MTCP_LED_USR`. -/
theorem only_ack_opens_gate (K : Consts) (st : DeviceState) (h : st.ack = 0) :
    (∀ cmd arg, (tuxctl_ioctl K st cmd arg).st.ack = 0) ∧
    (∀ p0 p1 p2, p0 ≠ K.MTCP_ACK → (tuxctl_handle_packet K st p0 p1 p2).1.ack = 0) ∧
    (∀ evs : List Event, (∀ e ∈ evs, e.isAck K = false) →
      (run K st evs).1.ack = 0 ∧
      ledPackets (run K st evs).2 = [] ∧
      ∀ buf ∈ (run K st evs).2, buf = [K.MTCP_BIOC_ON, K.MTCP_LED_USR]) := by
  refine ⟨?_, ?_, ?_⟩
  · intro cmd arg
    rcases ioctl_cases K st cmd arg with ⟨_, hack⟩ | ⟨hne, _⟩
    · exact hack h
    · exact absurd h hne
  · intro p0 p1 p2 hp
    rcases packet_cases K st p0 p1 p2 hp with ⟨_, hack⟩ | ⟨hne, _⟩
    · exact hack h
    · exact absurd h hne
  · intro evs hno
    obtain ⟨h1, h2⟩ := closed_run K evs st h hno
    exact ⟨h1, ledPackets_init K _ h2, h2⟩

/-- Witness of C17: a display request, a reset packet, an init request, a
button packet, an undefined request, a button query and an unrecognized
packet, started with a command outstanding. -/
theorem only_ack_opens_gate_witness :
    (run sampleConsts { leds := 7, buttons := 0xFF, ack := 0 }
      [.ioctl 0x4510 0x000F1234, .packet 0x42 0 0, .ioctl 0x4513 0, .packet 0x41 0x8A 0x86,
       .ioctl 7 0, .ioctl 0x4512 0x1000, .packet 0x99 1 2]).1.ack = 0 ∧
    ledPackets (run sampleConsts { leds := 7, buttons := 0xFF, ack := 0 }
      [.ioctl 0x4510 0x000F1234, .packet 0x42 0 0, .ioctl 0x4513 0, .packet 0x41 0x8A 0x86,
       .ioctl 7 0, .ioctl 0x4512 0x1000, .packet 0x99 1 2]).2 = [] :=
  ⟨((only_ack_opens_gate sampleConsts { leds := 7, buttons := 0xFF, ack := 0 } rfl).2.2
      [.ioctl 0x4510 0x000F1234, .packet 0x42 0 0, .ioctl 0x4513 0, .packet 0x41 0x8A 0x86,
       .ioctl 7 0, .ioctl 0x4512 0x1000, .packet 0x99 1 2] (by decide)).1,
   ((only_ack_opens_gate sampleConsts { leds := 7, buttons := 0xFF, ack := 0 } rfl).2.2
      [.ioctl 0x4510 0x000F1234, .packet 0x42 0 0, .ioctl 0x4513 0, .packet 0x41 0x8A 0x86,
       .ioctl 7 0, .ioctl 0x4512 0x1000, .packet 0x99 1 2] (by decide)).2.1⟩

/-- C18: from any state, over any finite sequence of `tuxctl_ioctl` calls and
packets without an acknowledgment packet, at most one six-byte LED buffer is
written in all, by display requests and reset replays together; and, for
sequences of any kind, if two events each write an LED buffer, one of the
events between them is an acknowledgment packet. -/
theorem single_outstanding (K : Consts) (st : DeviceState) :
    (∀ evs : List Event, (∀ e ∈ evs, e.isAck K = false) →
      (ledPackets (run K st evs).2).length ≤ 1) ∧
    (∀ (e1 e2 : Event) (mid : List Event),
      ledPackets (step K st e1).2 ≠ [] →
      ledPackets (step K (run K (step K st e1).1 mid).1 e2).2 ≠ [] →
      ∃ e ∈ mid, e.isAck K = true) := by
  refine ⟨fun evs hno => count_le_one K evs st hno, ?_⟩
  intro e1 e2 mid h1 h2
  by_contra hcon
  have hmid : ∀ e ∈ mid, e.isAck K = false := by
    intro e he
    by_contra hx
    exact hcon ⟨e, he, by simpa using hx⟩
  have he1 : e1.isAck K = false := by
    by_contra hx
    exact h1 (by rw [step_ack_tx K st e1 (by simpa using hx)]; rfl)
  have he2 : e2.isAck K = false := by
    by_contra hx
    exact h2 (by rw [step_ack_tx K _ e2 (by simpa using hx)]; rfl)
  have hall : ∀ e ∈ e1 :: (mid ++ [e2]), e.isAck K = false := by
    intro e he
    rcases List.mem_cons.mp he with he | he
    · rw [he]; exact he1
    · rcases List.mem_append.mp he with he | he
      · exact hmid e he
      · rw [List.mem_singleton.mp he]; exact he2
  have hc := count_le_one K _ st hall
  rw [run_cons, run_append, run_cons] at hc
  simp only [ledPackets_append, List.length_append] at hc
  have l1 := List.length_pos.mpr h1
  have l2 := List.length_pos.mpr h2
  omega

/-- Witness of C18: from the initial globals, a display request, a reset
packet, a second display request and an init request write one LED buffer;
and two display requests that both write have the acknowledgment between
them. -/
theorem single_outstanding_witness :
    (ledPackets (run sampleConsts initialState
      [.ioctl 0x4510 0x000F1234, .packet 0x42 0 0, .ioctl 0x4510 0x000F5678,
       .ioctl 0x4513 0]).2).length ≤ 1 ∧
    ∃ e ∈ [Event.packet 0x41 0x8A 0x86, Event.packet 0x40 0 0],
      e.isAck sampleConsts = true :=
  ⟨(single_outstanding sampleConsts initialState).1
      [.ioctl 0x4510 0x000F1234, .packet 0x42 0 0, .ioctl 0x4510 0x000F5678, .ioctl 0x4513 0]
      (by decide),
   (single_outstanding sampleConsts initialState).2
      (.ioctl 0x4510 0x000F1234) (.ioctl 0x4510 0x000F5678)
      [.packet 0x41 0x8A 0x86, .packet 0x40 0 0] (by decide) (by decide)⟩

/-! ### The value a reset replays -/

theorem quiet_step (K : Consts) (st : DeviceState) (e : Event) (h : st.ack = 0)
    (hq : e.isQuiet K = true) :
    (step K st e).1.ack = 0 ∧ (step K st e).1.leds = st.leds ∧ (step K st e).2 = [] := by
  cases e with
  | ioctl cmd arg =>
    have hc : cmd = K.TUX_SET_LED ∨ cmd = K.TUX_BUTTONS := by
      simpa [Event.isQuiet] using hq
    show (tuxctl_ioctl K st cmd arg).st.ack = 0 ∧ (tuxctl_ioctl K st cmd arg).st.leds = st.leds ∧
      (tuxctl_ioctl K st cmd arg).tx = []
    rcases hc with hc | hc
    · rw [hc, ioctl_TUX_SET_LED, setLED_closed K st arg h]
      exact ⟨h, rfl, rfl⟩
    · rw [hc, ioctl_TUX_BUTTONS]
      unfold tuxctl_ioctl_buttons
      split_ifs
      · exact ⟨h, rfl, rfl⟩
      · exact ⟨h, rfl, rfl⟩
  | packet p0 p1 p2 =>
    have hp : p0 ≠ K.MTCP_ACK ∧ p0 ≠ K.MTCP_RESET := by
      simpa [Event.isQuiet] using hq
    show (tuxctl_handle_packet K st p0 p1 p2).1.ack = 0 ∧
      (tuxctl_handle_packet K st p0 p1 p2).1.leds = st.leds ∧
      (tuxctl_handle_packet K st p0 p1 p2).2 = []
    by_cases h2 : p0 = K.MTCP_BIOC_EVENT
    · rw [h2, handle_event]
      exact ⟨h, rfl, rfl⟩
    · rw [handle_other K st p0 p1 p2 hp.1 h2 hp.2]
      exact ⟨h, rfl, rfl⟩

theorem quiet_run (K : Consts) (evs : List Event) :
    ∀ st : DeviceState, st.ack = 0 → (∀ e ∈ evs, e.isQuiet K = true) →
      (run K st evs).1.ack = 0 ∧ (run K st evs).1.leds = st.leds ∧ (run K st evs).2 = [] := by
  induction evs with
  | nil => intro st h _; exact ⟨h, rfl, rfl⟩
  | cons e es ih =>
    intro st h hq
    obtain ⟨s1, s2, s3⟩ := quiet_step K st e h (hq e (List.mem_cons_self e es))
    obtain ⟨r1, r2, r3⟩ :=
      ih (step K st e).1 s1 (fun x hx => hq x (List.mem_cons_of_mem e hx))
    rw [run_cons]
    refine ⟨r1, ?_, ?_⟩
    · show (run K (step K st e).1 es).1.leds = st.leds
      rw [r2, s2]
    · show (step K st e).2 ++ (run K (step K st e).1 es).2 = []
      rw [s3, r3]
      rfl

/-- C19: from a state with no command outstanding, a display request with
value `v` writes a buffer `P`; after any sequence of further display requests
with any values, button queries, button packets and unrecognized packets,
then an acknowledgment packet and then a reset packet, the reset handler
writes `MTCP_BIOC_ON`, `MTCP_LED_USR` followed by the same buffer `P`, nothing
was written in between, and `leds` is still `v`. -/
theorem replay_last_accepted (K : Consts) (st : DeviceState) (v : Nat) (mid : List Event)
    (p1 p2 q1 q2 : Nat) (h : st.ack = 1) (hq : ∀ e ∈ mid, e.isQuiet K = true) :
    ∃ P : List Nat,
      (tuxctl_ioctl_setLED K st v).tx = [P] ∧
      P = [K.MTCP_LED_SET, 0x0F, specSegment v 0, specSegment v 1, specSegment v 2,
        specSegment v 3] ∧
      (run K (tuxctl_ioctl_setLED K st v).st mid).2 = [] ∧
      (tuxctl_handle_packet K
        (tuxctl_handle_packet K (run K (tuxctl_ioctl_setLED K st v).st mid).1
          K.MTCP_ACK p1 p2).1 K.MTCP_RESET q1 q2).2
        = [[K.MTCP_BIOC_ON, K.MTCP_LED_USR], P] ∧
      (tuxctl_handle_packet K
        (tuxctl_handle_packet K (run K (tuxctl_ioctl_setLED K st v).st mid).1
          K.MTCP_ACK p1 p2).1 K.MTCP_RESET q1 q2).1.leds = v := by
  have hne : st.ack ≠ 0 := by omega
  have hs : (tuxctl_ioctl_setLED K st v).st = { leds := v, buttons := st.buttons, ack := 0 } := by
    rw [setLED_open K st v hne]
  obtain ⟨_, r2, r3⟩ := quiet_run K mid (tuxctl_ioctl_setLED K st v).st (by rw [hs]) hq
  have hl : (run K (tuxctl_ioctl_setLED K st v).st mid).1.leds = v := by
    rw [r2, hs]
  refine ⟨specLedPacket K v, ?_, rfl, r3, ?_, ?_⟩
  · rw [setLED_open K st v hne]
  · rw [handle_ack, handle_reset, setLED_open K _ _ (by simp)]
    show [[K.MTCP_BIOC_ON, K.MTCP_LED_USR],
      specLedPacket K (run K (tuxctl_ioctl_setLED K st v).st mid).1.leds] = _
    rw [hl]
  · rw [handle_ack, handle_reset, setLED_open K _ _ (by simp)]
    exact hl

/-- Witness of C19: the value `0x000F1234` is accepted from the initial
globals; a second display request, a button query, a button packet and an
unrecognized packet follow, then the acknowledgment and the reset. -/
theorem replay_last_accepted_witness :
    ∃ P : List Nat,
      (tuxctl_ioctl_setLED sampleConsts initialState 0x000F1234).tx = [P] ∧
      (tuxctl_handle_packet sampleConsts
        (tuxctl_handle_packet sampleConsts
          (run sampleConsts (tuxctl_ioctl_setLED sampleConsts initialState 0x000F1234).st
            [.ioctl 0x4510 0x000F5678, .ioctl 0x4512 0x1000, .packet 0x41 0x8A 0x86,
             .packet 0x99 1 2]).1
          sampleConsts.MTCP_ACK 0 0).1 sampleConsts.MTCP_RESET 0 0).2
        = [[0xC3, 0xC7], P] := by
  obtain ⟨P, h1, _, _, h4, _⟩ := replay_last_accepted sampleConsts initialState 0x000F1234
    [.ioctl 0x4510 0x000F5678, .ioctl 0x4512 0x1000, .packet 0x41 0x8A 0x86, .packet 0x99 1 2]
    0 0 0 0 rfl (by decide)
  exact ⟨P, h1, h4⟩

end Tuxctl
